import Mathlib

/-!
Verification of the azuer_auth frontend authentication client.

The definitions below are a shallow embedding of the React frontend sources:
`frontend/src/utils/api.js` (and its sibling variant sending an
`X-Access-Token` header), `frontend/src/App.js` (two variants: the legacy
single-page shell storing its refresh interval in a global, and the routed
app shell keeping it in a ref), `frontend/src/components/LoginModal.js`
(device-code status polling), and `frontend/src/config/navigation.js`.

Times are modelled as natural numbers of milliseconds since the epoch.
JavaScript `null`/`undefined` fields are modelled with `Option`.
-/

namespace AzuerAuth

/-- The session metadata returned by `GET /api/session/{id}/info` as the
client consumes it: the token expiry timestamp (milliseconds; `none` models
an absent or null `token_expires_at` field) and the mapped role list
(`sessionInfo?.roles || []` in App.js defaults a missing list to empty). -/
structure SessionInfo where
  token_expires_at : Option Nat
  roles : List String
  deriving DecidableEq

/-- The object literal `{ needsRefresh, sessionInfo }` returned by
`authAPI.checkTokenExpiry` in api.js. -/
structure TokenExpiryResult where
  needsRefresh : Bool
  sessionInfo : Option SessionInfo
  deriving DecidableEq

/-- The refresh buffer hard-coded in `checkTokenExpiry`: `bufferMinutes = 5`,
converted to milliseconds by `bufferMinutes * 60000`. -/
def bufferMs : Nat := 5 * 60000

/-- `authAPI.checkTokenExpiry` from api.js (identical in both api variants).
`info` is what `getSessionInfo` produced (`none` models both a null response
and the catch branch, which also reports `needsRefresh: true`).  When the
info lacks `token_expires_at`, the function reports `needsRefresh: true`;
otherwise it compares `bufferTime = now + 5*60000` against the expiry and
reports `needsRefresh: bufferTime >= expiryTime`. -/
def checkTokenExpiry (info : Option SessionInfo) (nowMs : Nat) : TokenExpiryResult :=
  match info with
  | none => { needsRefresh := true, sessionInfo := none }
  | some i =>
    match i.token_expires_at with
    | none => { needsRefresh := true, sessionInfo := some i }
    | some exp => { needsRefresh := decide (nowMs + bufferMs ≥ exp), sessionInfo := some i }

/-- JavaScript truthiness of the value bound to `needsRefresh` in the refresh
tick of App.js.  Both variants write
`const needsRefresh = await authAPI.checkTokenExpiry(sessionId)` and then
test `if (needsRefresh)`; the bound value is the whole
`{ needsRefresh, sessionInfo }` object, and in JavaScript every object
reference coerces to `true`. -/
def jsObjectTruthy (_r : TokenExpiryResult) : Bool := true

/-- Whether one tick of `startTokenRefreshMonitor` (either App.js variant)
reaches the `authAPI.refreshToken` call: the tick calls it exactly when the
truthiness test `if (needsRefresh)` on the object returned by
`checkTokenExpiry` passes. -/
def tickCallsRefresh (info : Option SessionInfo) (nowMs : Nat) : Bool :=
  jsObjectTruthy (checkTokenExpiry info nowMs)

/-- The browser localStorage keys the client reads for authentication:
`sessionId` and `accessToken` (`none` = key absent). -/
structure Storage where
  sessionId : Option String
  accessToken : Option String
  deriving DecidableEq

/-- The request interceptor of `frontend/src/utils/api.js`: attach
`X-Session-ID` when a session id is stored, and both `Authorization: Bearer`
and `X-Authorization: Bearer` when an access token is stored. -/
def attachAuthHeadersLegacy (s : Storage) : List (String × String) :=
  (match s.sessionId with
    | some sid => [("X-Session-ID", sid)]
    | none => []) ++
  (match s.accessToken with
    | some t => [("Authorization", "Bearer " ++ t), ("X-Authorization", "Bearer " ++ t)]
    | none => [])

/-- The request interceptor of the sibling api variant: attach `X-Session-ID`
when a session id is stored and the compact `X-Access-Token` header when an
access token is stored. -/
def attachAuthHeadersRouted (s : Storage) : List (String × String) :=
  (match s.sessionId with
    | some sid => [("X-Session-ID", sid)]
    | none => []) ++
  (match s.accessToken with
    | some t => [("X-Access-Token", t)]
    | none => [])

/-- Whether a header with the given name is present on a request. -/
def hasHeader (name : String) (headers : List (String × String)) : Bool :=
  headers.any (fun h => h.1 = name)

/-- The response interceptor of both api variants: on an error whose
`response?.status` is 401 it removes both `sessionId` and `accessToken` from
storage and reloads the page (the returned flag); any other error leaves
storage untouched and does not reload.  `status = none` models an error
without a response (network failure). -/
def handleErrorResponse (status : Option Nat) (s : Storage) : Storage × Bool :=
  if status = some 401 then ({ sessionId := none, accessToken := none }, true)
  else (s, false)

/-- The outcome of a request to a protected backend route. -/
inductive RouteResponse where
  | denied
  | allowed
  deriving DecidableEq

/-- Modelled from the spec: the backend SessionAPI / AuthorizationGate
handling of protected routes is not among the frontend sources.  Per the
spec, protected routes require both a session identifier header and a bearer
token header; a request missing either, or whose session fails
AuthorizationGate, returns an authorization-denied response. -/
def protectedRouteRespond (hasSessionHeader hasBearerHeader gateAllows : Bool) : RouteResponse :=
  if !hasSessionHeader || !hasBearerHeader then .denied
  else if gateAllows then .allowed
  else .denied

/-- Timer state of the legacy App.js shell.  `live` is the set of interval
timers currently scheduled by the browser (as a list of distinct handles),
`window` is the global `window.tokenRefreshInterval` slot, and `next` is the
next fresh handle `setInterval` would return. -/
structure LegacyTimers where
  live : List Nat
  window : Option Nat
  next : Nat
  deriving DecidableEq

/-- `startTokenRefreshMonitor` of the legacy App.js shell: `setInterval`
schedules a fresh timer and its handle is written over
`window.tokenRefreshInterval`; any previously scheduled timer is left
running. -/
def legacyStart (s : LegacyTimers) : LegacyTimers :=
  { live := s.next :: s.live, window := some s.next, next := s.next + 1 }

/-- The `finally` block of the legacy `handleLogout`: if
`window.tokenRefreshInterval` holds a handle, `clearInterval` cancels that
one timer; the slot itself is not nulled and no other timer is touched. -/
def legacyLogoutCleanup (s : LegacyTimers) : LegacyTimers :=
  match s.window with
  | some h => { live := s.live.filter (fun i => i ≠ h), window := s.window, next := s.next }
  | none => s

/-- Timer state of the routed App.js shell: `live` as above, `ref` is
`refreshIntervalRef.current`, `next` the next fresh handle. -/
structure RoutedTimers where
  live : List Nat
  ref : Option Nat
  next : Nat
  deriving DecidableEq

/-- `stopTokenRefreshMonitor` of the routed shell: if the ref holds a handle,
`clearInterval` cancels that timer and the ref is nulled. -/
def routedStop (s : RoutedTimers) : RoutedTimers :=
  match s.ref with
  | some h => { live := s.live.filter (fun i => i ≠ h), ref := none, next := s.next }
  | none => s

/-- `startTokenRefreshMonitor` of the routed shell: a null session id returns
at once; otherwise the existing monitor is stopped first and a fresh interval
timer is scheduled, its handle stored in the ref. -/
def routedStart (activeSessionId : Option String) (s : RoutedTimers) : RoutedTimers :=
  match activeSessionId with
  | none => s
  | some _ =>
    let s' := routedStop s
    { live := s'.next :: s'.live, ref := some s'.next, next := s'.next + 1 }

/-- A sequence of `startTokenRefreshMonitor` calls on the routed shell. -/
def applyStarts (sids : List (Option String)) (s : RoutedTimers) : RoutedTimers :=
  sids.foldl (fun t sid => routedStart sid t) s

/-- The routed shell only ever manipulates timers through `routedStart` and
`routedStop`, so the live timers are exactly the one tracked by the ref. -/
def wfTimers (s : RoutedTimers) : Prop :=
  s.live = s.ref.toList

/-- The client-side state the routed App shell mutates on logout: the
localStorage credentials, the timer state, and the authenticated flag. -/
structure ClientState where
  storage : Storage
  timers : RoutedTimers
  isAuthenticated : Bool
  deriving DecidableEq

/-- `handleLogout` of the routed shell.  The try block calls
`authAPI.logout` when a session id is stored (the returned flag); the
finally block stops the refresh monitor, removes `sessionId` from storage,
and clears the authenticated flag.  No branch writes `accessToken` (the
client never stores one; the only localStorage write in the sources is
`setItem('sessionId', ...)` in LoginModal). -/
def handleLogout (c : ClientState) : ClientState × Bool :=
  ({ storage := { sessionId := none, accessToken := c.storage.accessToken },
     timers := routedStop c.timers,
     isAuthenticated := false },
   c.storage.sessionId.isSome)

/-- The catch branch of a refresh-monitor tick: when `authAPI.refreshToken`
throws, the tick runs `handleLogout` (both App.js variants). -/
def tickOnRefreshFailure (c : ClientState) : ClientState × Bool :=
  handleLogout c

/-- A status the backend reports to `GET /api/auth/status/{sessionId}` as
LoginModal's poller branches on it: `completed` with `authorized`
true/false, an `error` or `timeout` status, or anything else (still
pending). -/
inductive PollStatus where
  | pending
  | completedAuthorized
  | completedUnauthorized
  | errorStatus
  | timeoutStatus
  deriving DecidableEq

/-- How a run of LoginModal's `pollAuthStatus` loop ends. -/
inductive PollOutcome where
  | clientTimeout
  | success
  | completeFailed
  | notAuthorized
  | failed
  deriving DecidableEq

/-- `maxAttempts = 150` in `pollAuthStatus`: "Poll for 5 minutes (2 second
intervals)". -/
def maxAttempts : Nat := 150

/-- The recursive `poll` closure of `pollAuthStatus`.  `responses n` is the
status the backend returns to the poll made with `attempts = n`;
`completeOk` is whether the `authAPI.completeAuth` call succeeds.  The
second `Nat` argument is the remaining budget `maxAttempts - attempts`: the
loop first checks `attempts >= maxAttempts` (timeout error), and only the
pending branch increments `attempts` and reschedules. -/
def pollFrom (responses : Nat → PollStatus) (completeOk : Bool) :
    Nat → Nat → PollOutcome
  | _, 0 => .clientTimeout
  | attempts, left + 1 =>
    match responses attempts with
    | .pending => pollFrom responses completeOk (attempts + 1) left
    | .completedAuthorized => if completeOk then .success else .completeFailed
    | .completedUnauthorized => .notAuthorized
    | .errorStatus => .failed
    | .timeoutStatus => .failed

/-- `pollAuthStatus` of LoginModal: start the poll loop at `attempts = 0`. -/
def pollAuthStatus (responses : Nat → PollStatus) (completeOk : Bool) : PollOutcome :=
  pollFrom responses completeOk 0 maxAttempts

/-- The response of `POST /api/auth/start` as LoginModal's `startLogin`
consumes it, together with a possible advertised poll interval
(milliseconds) from the provider.  `startLogin` reads only `user_code`,
`verification_uri` and `session_id`. -/
structure StartAuthResponse where
  user_code : String
  verification_uri : String
  session_id : String
  advertisedIntervalMs : Option Nat
  deriving DecidableEq

/-- The delay LoginModal schedules between successive status polls:
`setTimeout(poll, 2000)` — a constant 2000 ms; no field of the start-auth
response is consulted. -/
def pollDelayMs (_resp : StartAuthResponse) : Nat := 2000

/-- One entry of `NAVIGATION_ITEMS` in `config/navigation.js` (the React
`component` field is a UI concern and is not part of the model). -/
structure NavItem where
  key : String
  label : String
  path : String
  roles : List String
  requiresAuth : Bool
  deriving DecidableEq

/-- `NAVIGATION_ITEMS` of `config/navigation.js`. -/
def NAVIGATION_ITEMS : List NavItem :=
  [ { key := "home", label := "Home", path := "/", roles := ["user", "admin"], requiresAuth := true },
    { key := "docs", label := "Docs", path := "/docs", roles := ["user", "admin"], requiresAuth := true },
    { key := "chat", label := "Chat", path := "/chat", roles := ["admin"], requiresAuth := true },
    { key := "scenario-generator", label := "Scenario Generator", path := "/scenario/generator", roles := ["admin"], requiresAuth := true },
    { key := "scenario-library", label := "Scenario Library", path := "/scenario/library", roles := ["admin"], requiresAuth := true },
    { key := "dashboard", label := "Dashboard", path := "/dashboard", roles := ["admin"], requiresAuth := true },
    { key := "glossary", label := "Glossary", path := "/glossary", roles := ["user", "admin"], requiresAuth := true },
    { key := "task", label := "Task", path := "/task", roles := ["admin"], requiresAuth := true },
    { key := "one-off-feature", label := "OneOffFeature", path := "/one-off-feature", roles := ["admin"], requiresAuth := true },
    { key := "feedback", label := "Feedback", path := "/feedback", roles := ["user", "admin"], requiresAuth := true } ]

/-- The path of `UNAUTHORIZED_ROUTE` in `config/navigation.js`. -/
def unauthorizedRoutePath : String := "/unauthorized"

/-- The filter predicate inside `availableNavItems` in the routed App shell:
reject `requiresAuth` items when unauthenticated; accept items whose `roles`
list is missing or empty; otherwise require some user role to be contained
in the item's roles. -/
def navItemVisible (isAuth : Bool) (userRoles : List String) (item : NavItem) : Bool :=
  if item.requiresAuth && !isAuth then false
  else if item.roles.isEmpty then true
  else userRoles.any (fun r => item.roles.contains r)

/-- `availableNavItems` of the routed App shell: unauthenticated sessions
get no items; otherwise the navigation items are filtered by
`navItemVisible`. -/
def availableNavItems (isAuth : Bool) (userRoles : List String) (items : List NavItem) : List NavItem :=
  if !isAuth then [] else items.filter (navItemVisible isAuth userRoles)

/-- `sessionInfo?.roles || []` in the routed App shell: the role list of the
session info, empty when the info is missing. -/
def userRolesOf (info : Option SessionInfo) : List String :=
  match info with
  | some i => i.roles
  | none => []

/-- The navigation effect of the routed App shell: it does nothing while
unauthenticated; with no available items it navigates to
`UNAUTHORIZED_ROUTE.path`; with the current path not among the available
items it navigates to the first available item's path. -/
def navRedirect (isAuth : Bool) (avail : List NavItem) (currentPath : String) : Option String :=
  if !isAuth then none
  else
    match avail with
    | [] => some unauthorizedRoutePath
    | a :: rest =>
      if (a :: rest).any (fun i => i.path = currentPath) then none
      else some a.path

/-! ## Helper lemmas -/

lemma routedStop_live_of_wf (s : RoutedTimers) (h : wfTimers s) :
    (routedStop s).live = [] ∧ (routedStop s).ref = none := by
  unfold wfTimers at h
  unfold routedStop
  cases hr : s.ref with
  | none => simp [hr] at h ⊢; simpa [hr] using h
  | some v =>
    rw [hr] at h
    simp only [Option.toList] at h
    simp [h]

lemma wfTimers_routedStart (sid : Option String) (s : RoutedTimers) (h : wfTimers s) :
    wfTimers (routedStart sid s) := by
  cases sid with
  | none => simpa [routedStart] using h
  | some v =>
    have hs := routedStop_live_of_wf s h
    simp [routedStart, wfTimers, hs.1]

lemma routedStart_some_live (sid : String) (s : RoutedTimers) (h : wfTimers s) :
    (routedStart (some sid) s).live = [(routedStop s).next] := by
  have hs := routedStop_live_of_wf s h
  simp [routedStart, hs.1]

lemma applyStarts_cons (sid : Option String) (rest : List (Option String)) (s : RoutedTimers) :
    applyStarts (sid :: rest) s = applyStarts rest (routedStart sid s) := by
  simp [applyStarts, List.foldl]

lemma wfTimers_applyStarts (sids : List (Option String)) (s : RoutedTimers) (h : wfTimers s) :
    wfTimers (applyStarts sids s) := by
  induction sids generalizing s with
  | nil => simpa [applyStarts] using h
  | cons sid rest ih =>
    rw [applyStarts_cons]
    exact ih _ (wfTimers_routedStart sid s h)

lemma wfTimers_live_length (s : RoutedTimers) (h : wfTimers s) : s.live.length ≤ 1 := by
  unfold wfTimers at h
  rw [h]
  cases s.ref <;> simp [Option.toList]

lemma pollFrom_all_pending (responses : Nat → PollStatus) (completeOk : Bool)
    (left attempts : Nat)
    (h : ∀ i, attempts ≤ i → i < attempts + left → responses i = .pending) :
    pollFrom responses completeOk attempts left = .clientTimeout := by
  induction left generalizing attempts with
  | zero => rfl
  | succ n ih =>
    have hp : responses attempts = .pending :=
      h attempts (Nat.le_refl _) (Nat.lt_add_of_pos_right (Nat.succ_pos n))
    rw [pollFrom, hp]
    exact ih (attempts + 1) (fun i h1 h2 => h i (Nat.le_of_succ_le h1) (by omega))

/-! ## Claim theorems -/

/-- C1.  The claim states that the silent refresh call fires on a monitor
tick if and only if `now + bufferMs` is at or past `token_expires_at`.  The
code discards the computed flag: the tick tests the truthiness of the whole
`{ needsRefresh, sessionInfo }` object, which is always truthy, so the
refresh call fires on a tick whose expiry (one hour away) is far beyond the
five-minute buffer, even though `checkTokenExpiry` itself computed
`needsRefresh = false`. -/
theorem refresh_tick_fires_with_distant_expiry :
    tickCallsRefresh (some { token_expires_at := some 3600000, roles := ["user"] }) 0 = true
    ∧ (checkTokenExpiry (some { token_expires_at := some 3600000, roles := ["user"] }) 0).needsRefresh = false
    ∧ ¬ (0 + bufferMs ≥ 3600000) := by
  refine ⟨rfl, ?_, by decide⟩
  simp [checkTokenExpiry, bufferMs]

/-- C2.  Navigation availability in the routed App shell: for an
authenticated session, an item is available iff its required-role list is
empty or intersects the session's roles; an unauthenticated session receives
no items; and with the program's `NAVIGATION_ITEMS` (every entry
role-gated), an empty role set yields no items and the shell navigates to
the Unauthorized page. -/
theorem nav_availability_matches_roles (userRoles : List String)
    (items : List NavItem) (item : NavItem) (p : String) :
    (item ∈ availableNavItems true userRoles items ↔
      item ∈ items ∧ (item.roles = [] ∨ ∃ r ∈ userRoles, r ∈ item.roles))
    ∧ availableNavItems false userRoles items = []
    ∧ availableNavItems true [] NAVIGATION_ITEMS = []
    ∧ navRedirect true (availableNavItems true [] NAVIGATION_ITEMS) p = some unauthorizedRoutePath := by
  refine ⟨?_, rfl, rfl, rfl⟩
  simp only [availableNavItems, Bool.not_true, Bool.false_eq_true, if_false, List.mem_filter]
  constructor
  · rintro ⟨hmem, hvis⟩
    refine ⟨hmem, ?_⟩
    simp only [navItemVisible, Bool.not_true, Bool.and_false, Bool.false_eq_true, if_false] at hvis
    by_cases he : item.roles.isEmpty
    · exact Or.inl (List.isEmpty_iff.mp he)
    · rw [if_neg he] at hvis
      right
      obtain ⟨r, hr, hcont⟩ := List.any_eq_true.mp hvis
      exact ⟨r, hr, List.elem_iff.mp hcont⟩
  · rintro ⟨hmem, hcond⟩
    refine ⟨hmem, ?_⟩
    simp only [navItemVisible, Bool.not_true, Bool.and_false, Bool.false_eq_true, if_false]
    rcases hcond with he | ⟨r, hr, hmemr⟩
    · simp [he]
    · by_cases hemp : item.roles.isEmpty
      · simp [hemp]
      · rw [if_neg hemp]
        exact List.any_eq_true.mpr ⟨r, hr, List.elem_iff.mpr hmemr⟩

/-- C3 counterexample.  In the legacy App.js shell, starting the refresh
monitor twice and then logging out leaves the first interval timer live
(only the handle in `window.tokenRefreshInterval` is cleared), so the
deleted session's monitor keeps firing refresh calls after logout. -/
theorem legacy_logout_leaves_timer_live :
    (legacyLogoutCleanup (legacyStart (legacyStart { live := [], window := none, next := 0 }))).live = [0]
    ∧ (legacyLogoutCleanup (legacyStart (legacyStart { live := [], window := none, next := 0 }))).live ≠ [] := by
  constructor <;> decide

/-- C3 amended.  In the routed App.js shell — whose `handleLogout` runs
`stopTokenRefreshMonitor` and whose start stops the previous monitor first —
after any sequence of `startTokenRefreshMonitor` calls, a single logout
leaves no live refresh timer, so no further refresh call can fire. -/
theorem routed_logout_stops_all_timers (sids : List (Option String)) (c : ClientState)
    (h : wfTimers c.timers) :
    ((handleLogout ⟨c.storage, applyStarts sids c.timers, c.isAuthenticated⟩).1).timers.live = [] := by
  have hwf := wfTimers_applyStarts sids c.timers h
  simpa [handleLogout] using (routedStop_live_of_wf _ hwf).1

/-- C3 witness: the amended theorem at a concrete client state with two
prior starts. -/
theorem routed_logout_stops_all_timers_witness :
    ((handleLogout ⟨⟨some "sid-1", none⟩, applyStarts [some "sid-1", some "sid-1"] ⟨[], none, 0⟩, true⟩).1).timers.live = [] :=
  routed_logout_stops_all_timers [some "sid-1", some "sid-1"]
    ⟨⟨some "sid-1", none⟩, ⟨[], none, 0⟩, true⟩ rfl

/-- C4 counterexample.  With the backend reporting a still-pending status on
every poll (the device code never expires and the server never reports a
timeout), LoginModal's poller still terminates with its own
client-side timeout error once its fixed budget of 150 attempts is spent:
polling is cut off by a client-side bound chosen independently of the
code's expiry. -/
theorem poll_times_out_while_pending :
    pollAuthStatus (fun _ => .pending) true = .clientTimeout := by
  decide

/-- C4 amended.  Device-code status polling in LoginModal is bounded by a
fixed client-side budget of `maxAttempts = 150` polls at 2-second intervals:
whenever the first 150 responses are still pending, the loop ends in the
client timeout error, regardless of the device code's own expiry (which the
client never consults). -/
theorem poll_cutoff_at_max_attempts (responses : Nat → PollStatus) (completeOk : Bool)
    (h : ∀ i, i < maxAttempts → responses i = .pending) :
    pollAuthStatus responses completeOk = .clientTimeout := by
  unfold pollAuthStatus
  exact pollFrom_all_pending responses completeOk maxAttempts 0
    (fun i _ hi => h i (by simpa using hi))

/-- C4 witness: the amended theorem at the all-pending response stream. -/
theorem poll_cutoff_at_max_attempts_witness :
    pollAuthStatus (fun _ => .pending) false = .clientTimeout :=
  poll_cutoff_at_max_attempts (fun _ => .pending) false (fun _ _ => rfl)

/-- C5.  When a silent refresh fails, the monitor tick's catch branch runs
`handleLogout`: the stored session id is removed (and, since the client
never stores an access token, no credential remains in storage), the
authenticated flag is cleared, the refresh timer is stopped, and the
backend logout endpoint is invoked exactly when a session id was stored.
The client never continues with a degraded session. -/
theorem refresh_failure_forces_logout (c : ClientState)
    (ha : c.storage.accessToken = none) (hw : wfTimers c.timers) :
    ((tickOnRefreshFailure c).1).storage.sessionId = none
    ∧ ((tickOnRefreshFailure c).1).storage.accessToken = none
    ∧ ((tickOnRefreshFailure c).1).isAuthenticated = false
    ∧ ((tickOnRefreshFailure c).1).timers.live = []
    ∧ (tickOnRefreshFailure c).2 = c.storage.sessionId.isSome := by
  refine ⟨rfl, ha, rfl, ?_, rfl⟩
  simpa [tickOnRefreshFailure, handleLogout] using (routedStop_live_of_wf _ hw).1

/-- C5 witness: the theorem at a concrete authenticated client state with a
live monitor. -/
theorem refresh_failure_forces_logout_witness :
    ((tickOnRefreshFailure ⟨⟨some "sid-9", none⟩, ⟨[5], some 5, 6⟩, true⟩).1).storage.sessionId = none
    ∧ ((tickOnRefreshFailure ⟨⟨some "sid-9", none⟩, ⟨[5], some 5, 6⟩, true⟩).1).timers.live = [] := by
  have h := refresh_failure_forces_logout ⟨⟨some "sid-9", none⟩, ⟨[5], some 5, 6⟩, true⟩ rfl rfl
  exact ⟨h.1, h.2.2.2.1⟩

/-- C6 counterexample.  In the legacy App.js shell, a second
`startTokenRefreshMonitor` call schedules a second interval timer while the
first keeps running: after two starts two timers are live, not one. -/
theorem legacy_double_start_two_timers :
    (legacyStart (legacyStart { live := [], window := none, next := 0 })).live.length = 2
    ∧ (legacyStart (legacyStart { live := [], window := none, next := 0 })).live.length ≠ 1 := by
  constructor <;> decide

/-- C6 amended.  In the routed App.js shell, whose start first runs
`stopTokenRefreshMonitor`, any sequence of start calls leaves at most one
live refresh timer; starting again on such a state yields exactly one live
timer; and a single stop removes every live timer. -/
theorem routed_start_idempotent_timers (sids : List (Option String)) (sid : String)
    (s : RoutedTimers) (h : wfTimers s) :
    (applyStarts sids s).live.length ≤ 1
    ∧ (routedStart (some sid) (applyStarts sids s)).live.length = 1
    ∧ (routedStop (applyStarts sids s)).live = [] := by
  have hwf := wfTimers_applyStarts sids s h
  refine ⟨wfTimers_live_length _ hwf, ?_, (routedStop_live_of_wf _ hwf).1⟩
  rw [routedStart_some_live sid _ hwf]
  rfl

/-- C6 witness: the amended theorem after two concrete start calls. -/
theorem routed_start_idempotent_timers_witness :
    (applyStarts [some "sid-2", some "sid-2"] { live := [], ref := none, next := 0 }).live.length ≤ 1
    ∧ (routedStart (some "sid-2") (applyStarts [some "sid-2", some "sid-2"]
        { live := [], ref := none, next := 0 })).live.length = 1 := by
  have h := routed_start_idempotent_timers [some "sid-2", some "sid-2"] "sid-2"
    { live := [], ref := none, next := 0 } rfl
  exact ⟨h.1, h.2.1⟩

/-- C7 counterexample.  The provider advertises a 5-second poll interval in
the start-auth response, but LoginModal schedules the next status poll with
the constant `setTimeout(poll, 2000)`: the delay is 2000 ms, not the
advertised 5000 ms. -/
theorem poll_delay_ignores_advertised_interval :
    pollDelayMs ⟨"ABCD-1234", "https://microsoft.com/devicelogin", "sid-3", some 5000⟩ = 2000
    ∧ pollDelayMs ⟨"ABCD-1234", "https://microsoft.com/devicelogin", "sid-3", some 5000⟩ ≠ 5000 := by
  constructor <;> decide

/-- C7 amended.  The delay between successive device-code status polls is a
constant 2000 ms, identical for every start-auth response and therefore
independent of any advertised poll interval. -/
theorem poll_delay_constant (r₁ r₂ : StartAuthResponse) :
    pollDelayMs r₁ = 2000 ∧ pollDelayMs r₁ = pollDelayMs r₂ :=
  ⟨rfl, rfl⟩

/-- C8.  The request interceptors attach the `X-Session-ID` header exactly
when a session id is in storage and a bearer credential header
(`Authorization`/`X-Authorization` in one api variant, `X-Access-Token` in
the other) exactly when an access token is in storage; and the
spec-modelled protected-route gate answers a request missing either header
with an authorization-denied response. -/
theorem auth_headers_attached_and_required (s : Storage) (gateAllows hs hb : Bool) :
    hasHeader "X-Session-ID" (attachAuthHeadersLegacy s) = s.sessionId.isSome
    ∧ hasHeader "Authorization" (attachAuthHeadersLegacy s) = s.accessToken.isSome
    ∧ hasHeader "X-Authorization" (attachAuthHeadersLegacy s) = s.accessToken.isSome
    ∧ hasHeader "X-Session-ID" (attachAuthHeadersRouted s) = s.sessionId.isSome
    ∧ hasHeader "X-Access-Token" (attachAuthHeadersRouted s) = s.accessToken.isSome
    ∧ ((hs = false ∨ hb = false) → protectedRouteRespond hs hb gateAllows = .denied) := by
  obtain ⟨sid, tok⟩ := s
  refine ⟨?_, ?_, ?_, ?_, ?_, ?_⟩
  · cases sid <;> cases tok <;> simp [attachAuthHeadersLegacy, hasHeader]
  · cases sid <;> cases tok <;> simp [attachAuthHeadersLegacy, hasHeader]
  · cases sid <;> cases tok <;> simp [attachAuthHeadersLegacy, hasHeader]
  · cases sid <;> cases tok <;> simp [attachAuthHeadersRouted, hasHeader]
  · cases sid <;> cases tok <;> simp [attachAuthHeadersRouted, hasHeader]
  · rintro (rfl | rfl)
    · simp [protectedRouteRespond]
    · cases hs <;> simp [protectedRouteRespond]

/-- C8 witness: the theorem at a concrete storage, and the modelled gate
denying a request that lacks the session header. -/
theorem auth_headers_attached_and_required_witness :
    hasHeader "X-Session-ID" (attachAuthHeadersLegacy { sessionId := some "abc", accessToken := some "tok" }) = true
    ∧ protectedRouteRespond false true true = .denied := by
  have h := auth_headers_attached_and_required
    { sessionId := some "abc", accessToken := some "tok" } true false true
  exact ⟨h.1.trans rfl, h.2.2.2.2.2 (Or.inl rfl)⟩

/-- C9.  The response interceptor reacts to a 401 status by clearing both
stored credentials — after which neither interceptor variant attaches any
authentication header — and leaves storage untouched (no reload) on every
other error status. -/
theorem unauthorized_response_clears_credentials (s : Storage) (status : Option Nat) :
    (handleErrorResponse (some 401) s).1 = { sessionId := none, accessToken := none }
    ∧ attachAuthHeadersLegacy (handleErrorResponse (some 401) s).1 = []
    ∧ attachAuthHeadersRouted (handleErrorResponse (some 401) s).1 = []
    ∧ (handleErrorResponse (some 401) s).2 = true
    ∧ (status ≠ some 401 → handleErrorResponse status s = (s, false)) := by
  refine ⟨rfl, rfl, rfl, rfl, ?_⟩
  intro hne
  simp [handleErrorResponse, hne]

/-- C9 witness: the theorem at a concrete storage with both credentials
present, discharging the non-401 hypothesis at status 500. -/
theorem unauthorized_response_clears_credentials_witness :
    handleErrorResponse (some 500) { sessionId := some "abc", accessToken := some "tok" }
      = ({ sessionId := some "abc", accessToken := some "tok" }, false)
    ∧ (handleErrorResponse (some 401) { sessionId := some "abc", accessToken := some "tok" }).1
      = { sessionId := none, accessToken := none } := by
  have h := unauthorized_response_clears_credentials
    { sessionId := some "abc", accessToken := some "tok" } (some 500)
  exact ⟨h.2.2.2.2 (by decide), h.1⟩

/-- C10.  `checkTokenExpiry` fails conservatively toward refreshing: it
reports `needsRefresh = true` whenever the session info is missing or lacks
`token_expires_at`, and reports `needsRefresh = false` exactly when the
retrieved expiry lies strictly more than the five-minute buffer in the
future. -/
theorem check_token_expiry_conservative (i : SessionInfo) (nowMs exp : Nat) :
    (checkTokenExpiry none nowMs).needsRefresh = true
    ∧ (i.token_expires_at = none → (checkTokenExpiry (some i) nowMs).needsRefresh = true)
    ∧ (i.token_expires_at = some exp →
        ((checkTokenExpiry (some i) nowMs).needsRefresh = false ↔ nowMs + bufferMs < exp)) := by
  refine ⟨rfl, ?_, ?_⟩
  · intro h
    simp [checkTokenExpiry, h]
  · intro h
    simp [checkTokenExpiry, h, Nat.lt_iff_add_one_le]

/-- C10 witness: the theorem at a concrete session info whose expiry is far
beyond the buffer, and at a missing info. -/
theorem check_token_expiry_conservative_witness :
    (checkTokenExpiry (some { token_expires_at := some 1000000000, roles := [] }) 0).needsRefresh = false
    ∧ (checkTokenExpiry none 0).needsRefresh = true := by
  have h := check_token_expiry_conservative
    { token_expires_at := some 1000000000, roles := [] } 0 1000000000
  exact ⟨(h.2.2 rfl).mpr (by decide), h.1⟩

end AzuerAuth
